import Mathlib

/-!
Verification of the synchronization and pacing core of the PyEasyGraphics
graphics window (`easygraphics/graphwin.py`).

The embedding is a direct transliteration of the Python source:

* Machine time (`time.perf_counter_ns()`) is modelled as a stream of integer
  readings `clock : Nat -> Int`; each call to the clock consumes the next
  index (`tick`).  Python integers are unbounded, so timestamps and counters
  are `Int`.
* Python `//` (floor division on ints) is `Int.fdiv`.
* `QThread.usleep` and `real_update()` (the canvas-to-device sync) are
  observable effects recorded in an `Effects` record; they do not change the
  pacer state.
* The `RuntimeError` raised by the pacing primitives in immediate mode and
  the `ZeroDivisionError` of `10^9 // fps` at `fps = 0` are the error cases
  of an `Except`.
* The blocking input getters (`get_char`, `get_key`, `get_mouse_msg`) are
  modelled in two phases: the entry state `s` decides whether the call
  blocks (buffer staleness); if it blocks, the state observed at wake-up is
  an explicit parameter `wake` (the state produced by the event thread, e.g.
  by `keyPressEvent` or `closeEvent`, while the caller was waiting).
-/

set_option autoImplicit false

namespace PyEasyGraphics

/-- A key event as delivered by the toolkit: `e.key()`, `e.modifiers()`,
`e.text()` (PyQt `QKeyEvent`). -/
structure KeyEvent where
  key : Int
  modifiers : Int
  text : String
deriving Repr, DecidableEq

/-- A mouse event: `e.x()`, `e.y()`, `e.button()` (PyQt `QMouseEvent`). -/
structure MouseEvent where
  x : Int
  y : Int
  button : Int
deriving Repr, DecidableEq

/-- Modelled from the spec: the mouse message kind tag {Press, Release, None}
of `MouseMessageType` (the `easygraphics.consts` module is not under `src/`;
the spec's sentinel `(0, 0, None, NoButton)` fixes the None/unset kind, which
the source returns as the literal `0`). -/
def NO_MESSAGE : Int := 0

/-- Modelled from the spec: the Press kind tag of `MouseMessageType`. -/
def PRESS_MESSAGE : Int := 1

/-- Modelled from the spec: the Release kind tag of `MouseMessageType`. -/
def RELEASE_MESSAGE : Int := 2

/-- PyQt `QtCore.Qt.Key_Escape` (0x01000000). -/
def Key_Escape : Int := 16777216

/-- PyQt `QtCore.Qt.NoModifier`. -/
def NoModifier : Int := 0

/-- PyQt `QtCore.Qt.NoButton`. -/
def NoButton : Int := 0

/-- `_KeyMsg`: the key message buffer (timestamp plus most recent event). -/
structure KeyMsg where
  time : Int
  key_event : Option KeyEvent
deriving Repr, DecidableEq

/-- `_KeyMsg.set_event`: store the event and stamp the current time. -/
def KeyMsg.set_event (_ : KeyMsg) (e : KeyEvent) (now : Int) : KeyMsg :=
  ⟨now, some e⟩

/-- `_KeyMsg.reset`: clear to the unset sentinel (`time = 0`, no event). -/
def KeyMsg.reset (_ : KeyMsg) : KeyMsg := ⟨0, none⟩

/-- `_KeyCharMsg`: the char message buffer (timestamp plus `e.text()`). -/
structure KeyCharMsg where
  time : Int
  key : Option String
deriving Repr, DecidableEq

/-- `_KeyCharMsg.set_char`: store the event's text and stamp the time. -/
def KeyCharMsg.set_char (_ : KeyCharMsg) (e : KeyEvent) (now : Int) : KeyCharMsg :=
  ⟨now, some e.text⟩

/-- `_KeyCharMsg.reset`: clear to the unset sentinel. -/
def KeyCharMsg.reset (_ : KeyCharMsg) : KeyCharMsg := ⟨0, none⟩

/-- `_MouseMsg`: the mouse message buffer (timestamp, event, message kind;
`msg_type` is the source's `_type` field). -/
structure MouseMsg where
  time : Int
  mouse_event : Option MouseEvent
  msg_type : Int
deriving Repr, DecidableEq

/-- `_MouseMsg.set_event`: store event and kind, stamp the time. -/
def MouseMsg.set_event (_ : MouseMsg) (e : MouseEvent) (t : Int) (now : Int) : MouseMsg :=
  ⟨now, some e, t⟩

/-- `_MouseMsg.reset`: clear to the unset sentinel. -/
def MouseMsg.reset (_ : MouseMsg) : MouseMsg := ⟨0, none, NO_MESSAGE⟩

/-- The `GraphWin` state: lifecycle flag, render mode, pacer counters, the
four `threading.Event` flags (`true` = set) and the three message buffers. -/
structure GraphWin where
  is_run : Bool
  immediate : Bool
  skip_count : Int
  frames_to_skip_count : Int
  last_fps_time : Int
  frames_skipped : Int
  wait_event : Bool
  mouse_event : Bool
  key_event : Bool
  char_key_event : Bool
  key_msg : KeyMsg
  key_char_msg : KeyCharMsg
  mouse_msg : MouseMsg
deriving Repr, DecidableEq

/-- A window state together with the monotonic-clock stream: `clock i` is the
value returned by the `i`-th call to `time.perf_counter_ns()`, and `tick` is
the index of the next call. -/
structure World where
  win : GraphWin
  clock : Nat → Int
  tick : Nat

/-- Observable side effects of one pacing call: whether `real_update()` (the
surface sync) ran, and the microsecond argument of `QThread.usleep` when the
sleep was performed. -/
structure Effects where
  synced : Bool
  slept : Option Int
deriving Repr, DecidableEq

/-- No sync, no sleep. -/
def noEffects : Effects := ⟨false, none⟩

/-- Exceptions escaping the pacing primitives: the `RuntimeError` raised in
immediate mode, and the `ZeroDivisionError` of `1000000000 // fps` at
`fps = 0`. -/
inductive PacerError where
  | invalidMode
  | divByZero
deriving Repr, DecidableEq

/-- `GraphWin.closeEvent` (lines 144-149): flip the lifecycle flag and set
every wait signal so that no blocked caller stays blocked. -/
def closeEvent (s : GraphWin) : GraphWin :=
  { s with is_run := false, wait_event := true, mouse_event := true,
           key_event := true, char_key_event := true }

/-- `GraphWin.delay` (lines 163-178): raise in immediate mode, no-op when
closed, otherwise sync and sleep out the remainder of `milliseconds`.
The source takes `milliseconds` as a float; the claims under verification
touch only the mode and lifecycle checks, so it is embedded at `Int`.
Clock reads: `start_wait_time`, the comparison, and the `usleep` argument. -/
def delay (w : World) (milliseconds : Int) : Except PacerError (World × Effects) :=
  if w.win.immediate then .error .invalidMode
  else if !w.win.is_run then .ok (w, noEffects)
  else
    let nanotime := milliseconds * 1000000
    let start_wait_time := w.clock w.tick
    if w.clock (w.tick + 1) - start_wait_time < nanotime then
      .ok ({ w with tick := w.tick + 3 },
        ⟨true, some (Int.fdiv (start_wait_time + nanotime - w.clock (w.tick + 2)) 1000)⟩)
    else
      .ok ({ w with tick := w.tick + 2 }, ⟨true, (none : Option Int)⟩)

/-- `GraphWin.delay_fps` (lines 179-198): raise in immediate mode, return
`False` when closed; otherwise seed `last_fps_time` on first use, sync,
sleep while ahead of the period, and stamp `last_fps_time` with a fresh
reading. -/
def delay_fps (w : World) (fps : Int) : Except PacerError (Bool × World × Effects) :=
  if w.win.immediate then .error .invalidMode
  else if !w.win.is_run then .ok (false, w, noEffects)
  else if fps = 0 then .error .divByZero
  else
    let nanotime := Int.fdiv 1000000000 fps
    let seeded :=
      if w.win.last_fps_time = 0 then
        { w with win := { w.win with last_fps_time := w.clock w.tick }, tick := w.tick + 1 }
      else w
    let tt := seeded.clock seeded.tick
    let slept :=
      if tt - seeded.win.last_fps_time < nanotime then
        some (Int.fdiv (seeded.win.last_fps_time + nanotime - tt) 1000)
      else none
    .ok (true,
      { seeded with win := { seeded.win with last_fps_time := seeded.clock (seeded.tick + 1) }, tick := seeded.tick + 2 },
      ⟨true, slept⟩)

/-- The shared render tail of `delay_jfps` (lines 238-244): sync, compute
`sleep_time = (last_fps_time + nanotime - tt) // 1000`, sleep when positive,
stamp `last_fps_time` with a fresh reading, return `True`. -/
def jfpsRenderTail (w : World) (nanotime : Int) :
    Except PacerError (Bool × World × Effects) :=
  let tt := w.clock w.tick
  let sleep_time := Int.fdiv (w.win.last_fps_time + nanotime - tt) 1000
  .ok (true,
    { w with win := { w.win with last_fps_time := w.clock (w.tick + 1) }, tick := w.tick + 2 },
    ⟨true, if 0 < sleep_time then some sleep_time else none⟩)

/-- `GraphWin.delay_jfps` (lines 200-244): the frame-skipping pacer.  The
source's `round((nowtime - last_fps_time) // nanotime)` applies `round` to
an integer, which is the identity, so `owed` is the floor division itself. -/
def delay_jfps (w : World) (fps : Int) (max_skip_count : Int) :
    Except PacerError (Bool × World × Effects) :=
  if w.win.immediate then .error .invalidMode
  else if !w.win.is_run then .ok (false, w, noEffects)
  else if fps = 0 then .error .divByZero
  else
    let nanotime := Int.fdiv 1000000000 fps
    if 0 < w.win.frames_to_skip_count then
      let g := { w.win with frames_to_skip_count := w.win.frames_to_skip_count - 1, frames_skipped := w.win.frames_skipped + 1 }
      .ok (false, { w with win := g }, noEffects)
    else
      let seeded :=
        if w.win.last_fps_time = 0 then
          { w with win := { w.win with last_fps_time := w.clock w.tick }, tick := w.tick + 1 }
        else w
      let nowtime := seeded.clock seeded.tick
      let w1 := { seeded with tick := seeded.tick + 1 }
      if w1.win.last_fps_time + nanotime < nowtime then
        if w1.win.frames_skipped ≤ max_skip_count then
          let owed := Int.fdiv (nowtime - w1.win.last_fps_time) nanotime
          let w2 := { w1 with win := { w1.win with frames_to_skip_count := owed } }
          if max_skip_count ≤ 0 then
            let g := { w2.win with frames_to_skip_count := w2.win.frames_to_skip_count - 1, last_fps_time := w2.clock w2.tick }
            .ok (false, { w2 with win := g, tick := w2.tick + 1 }, noEffects)
          else if max_skip_count - w2.win.frames_skipped < w2.win.frames_to_skip_count then
            let g := { w2.win with frames_to_skip_count := (max_skip_count - w2.win.frames_skipped) - 1, frames_skipped := w2.win.frames_skipped + 1, last_fps_time := w2.clock w2.tick }
            .ok (false, { w2 with win := g, tick := w2.tick + 1 }, noEffects)
          else
            jfpsRenderTail w2 nanotime
        else
          jfpsRenderTail { w1 with win := { w1.win with frames_skipped := 0 } } nanotime
      else
        jfpsRenderTail w1 nanotime

/-- `GraphWin.get_char` (lines 246-264).  Returns the sentinel space when
closed at entry; otherwise blocks when the char buffer is stale
(`now - time > 100ms`), in which case the buffer is read from the wake-up
state `wake`; the buffer is reset after reading in either case. -/
def get_char (s : GraphWin) (now : Int) (wake : GraphWin) :
    Option String × GraphWin :=
  if !s.is_run then (some " ", s)
  else
    let s2 := if 100000000 < now - s.key_char_msg.time then wake else s
    (s2.key_char_msg.key, { s2 with key_char_msg := s2.key_char_msg.reset })

/-- `GraphWin.get_key` (lines 266-287).  Sentinel `(Key_Escape, NoModifier)`
when closed at entry or when the (possibly wake-time) buffer holds no event;
the buffer is reset only when an event is present. -/
def get_key (s : GraphWin) (now : Int) (wake : GraphWin) :
    (Int × Int) × GraphWin :=
  if !s.is_run then ((Key_Escape, NoModifier), s)
  else
    let s2 := if 100000000 < now - s.key_msg.time then wake else s
    match s2.key_msg.key_event with
    | none => ((Key_Escape, NoModifier), s2)
    | some e => ((e.key, e.modifiers), { s2 with key_msg := s2.key_msg.reset })

/-- `GraphWin.get_mouse_msg` (lines 289-312).  Sentinel
`(0, 0, 0, NoButton)` when closed at entry or the buffer holds no event. -/
def get_mouse_msg (s : GraphWin) (now : Int) (wake : GraphWin) :
    (Int × Int × Int × Int) × GraphWin :=
  if !s.is_run then ((0, 0, 0, NoButton), s)
  else
    let s2 := if 100000000 < now - s.mouse_msg.time then wake else s
    match s2.mouse_msg.mouse_event with
    | none => ((0, 0, 0, NoButton), s2)
    | some e =>
        ((e.x, e.y, s2.mouse_msg.msg_type, e.button),
         { s2 with mouse_msg := s2.mouse_msg.reset })

/-- `GraphWin.has_kb_hit` (lines 314-323): freshness probe of the char
buffer's timestamp. -/
def has_kb_hit (s : GraphWin) (now : Int) : Bool :=
  decide (now - s.key_char_msg.time ≤ 100000000)

/-- `GraphWin.has_kb_msg` (lines 325-334).  Note: the source reads
`_key_char_msg` (the char buffer) here, although its docstring pairs it with
`get_key`, which waits on `_key_msg`. -/
def has_kb_msg (s : GraphWin) (now : Int) : Bool :=
  decide (now - s.key_char_msg.time ≤ 100000000)

/-- `GraphWin.has_mouse_msg` (lines 336-345): freshness probe of the mouse
buffer's timestamp. -/
def has_mouse_msg (s : GraphWin) (now : Int) : Bool :=
  decide (now - s.mouse_msg.time ≤ 100000000)

/-- Follows the spec's words, for comparison with the source: the number of
frames owed, `round(elapsed / period)`, rounding the exact ratio to the
nearest integer (halves up): `fdiv (2*elapsed + period) (2*period)`.  The
source instead floor-divides first, making its `round` a no-op. -/
def owedSpec (elapsed period : Int) : Int :=
  Int.fdiv (2 * elapsed + period) (2 * period)

/-! Concrete fixture states used by witnesses and counterexamples. -/

/-- A running, manual-mode window with all buffers unset and all counters 0. -/
def w0 : GraphWin :=
  { is_run := true, immediate := false, skip_count := 0,
    frames_to_skip_count := 0, last_fps_time := 0, frames_skipped := 0,
    wait_event := false, mouse_event := false, key_event := false,
    char_key_event := false, key_msg := ⟨0, none⟩, key_char_msg := ⟨0, none⟩,
    mouse_msg := ⟨0, none, NO_MESSAGE⟩ }

/-- A world with three pending pre-scheduled skips. -/
def pendW : World :=
  { win := { w0 with frames_to_skip_count := 3, last_fps_time := 500 },
    clock := fun i => Int.ofNat (1000 + i), tick := 0 }

/-- An immediate-mode world (render mode not switched to manual). -/
def immW : World :=
  { win := { w0 with immediate := true }, clock := fun i => Int.ofNat i, tick := 0 }

/-- An immediate-mode world whose window is already closed. -/
def immClosedW : World :=
  { win := { w0 with immediate := true, is_run := false },
    clock := fun i => Int.ofNat i, tick := 0 }

/-- A manual-mode world whose window is already closed. -/
def manualClosedW : World :=
  { win := { w0 with is_run := false }, clock := fun i => Int.ofNat i, tick := 0 }

/-! Theorems for the claims. -/

/-- C2: on a running manual-mode window with `framesToSkipRemaining > 0` at
entry, `delay_jfps` consumes exactly one pending skip: it decrements the
pending-skip counter by one, increments the skipped-frame tally by one, and
returns `False` with no sync, no sleep, no clock read and no other state
change. -/
theorem delay_jfps_pending_skip (w : World) (fps max_skip : Int)
    (hfps : 1 ≤ fps) (him : w.win.immediate = false)
    (hrun : w.win.is_run = true) (hpend : 0 < w.win.frames_to_skip_count) :
    delay_jfps w fps max_skip =
      .ok (false,
        { w with win := { w.win with frames_to_skip_count := w.win.frames_to_skip_count - 1, frames_skipped := w.win.frames_skipped + 1 } },
        noEffects) := by
  have hfz : ¬ fps = 0 := by omega
  simp [delay_jfps, him, hrun, hfz, hpend]

/-- Witness for C2 at a concrete world with three pending skips. -/
theorem delay_jfps_pending_skip_witness :
    delay_jfps pendW 60 10 =
      .ok (false,
        { pendW with win := { pendW.win with frames_to_skip_count := pendW.win.frames_to_skip_count - 1, frames_skipped := pendW.win.frames_skipped + 1 } },
        noEffects) :=
  delay_jfps_pending_skip pendW 60 10 (by decide) (by decide) (by decide) (by decide)

/-- C5: in immediate render mode, each of the three pacing primitives
raises the invalid-mode error synchronously; none proceeds. -/
theorem pacing_invalid_mode (w : World) (ms fps max_skip : Int)
    (him : w.win.immediate = true) :
    delay w ms = .error .invalidMode ∧
    delay_fps w fps = .error .invalidMode ∧
    delay_jfps w fps max_skip = .error .invalidMode := by
  refine ⟨?_, ?_, ?_⟩ <;> simp [delay, delay_fps, delay_jfps, him]

/-- Witness for C5 at a concrete immediate-mode world. -/
theorem pacing_invalid_mode_witness :
    delay immW 5 = .error .invalidMode ∧
    delay_fps immW 60 = .error .invalidMode ∧
    delay_jfps immW 60 10 = .error .invalidMode :=
  pacing_invalid_mode immW 5 60 10 (by decide)

/-- C10: the immediate-mode check precedes the closed-window check: even on
a closed window, the three pacing primitives raise the invalid-mode error in
immediate mode; and whenever any of them returns normally (the `.ok` cases,
including the closed-window sentinel), the render mode was manual. -/
theorem pacing_mode_check_precedes_closed (w : World) (ms fps max_skip : Int) :
    (w.win.immediate = true → w.win.is_run = false →
       delay w ms = .error .invalidMode ∧
       delay_fps w fps = .error .invalidMode ∧
       delay_jfps w fps max_skip = .error .invalidMode)
    ∧ (∀ x, delay w ms = .ok x → w.win.immediate = false)
    ∧ (∀ x, delay_fps w fps = .ok x → w.win.immediate = false)
    ∧ (∀ x, delay_jfps w fps max_skip = .ok x → w.win.immediate = false) := by
  refine ⟨fun him _ => pacing_invalid_mode w ms fps max_skip him, ?_, ?_, ?_⟩
  · intro x hx
    by_cases him : w.win.immediate = true
    · rw [(pacing_invalid_mode w ms fps max_skip him).1] at hx
      exact absurd hx (by simp)
    · simpa using him
  · intro x hx
    by_cases him : w.win.immediate = true
    · rw [(pacing_invalid_mode w ms fps max_skip him).2.1] at hx
      exact absurd hx (by simp)
    · simpa using him
  · intro x hx
    by_cases him : w.win.immediate = true
    · rw [(pacing_invalid_mode w ms fps max_skip him).2.2] at hx
      exact absurd hx (by simp)
    · simpa using him

/-- Witness for C10: at a closed immediate-mode world the three primitives
error out, and at a closed manual-mode world the closed sentinel `.ok` of
`delay_fps` certifies manual mode. -/
theorem pacing_mode_check_precedes_closed_witness :
    (delay immClosedW 5 = .error .invalidMode ∧
     delay_fps immClosedW 60 = .error .invalidMode ∧
     delay_jfps immClosedW 60 10 = .error .invalidMode) ∧
    manualClosedW.win.immediate = false :=
  ⟨(pacing_mode_check_precedes_closed immClosedW 5 60 10).1 rfl rfl,
   (pacing_mode_check_precedes_closed manualClosedW 5 60 10).2.2.1
     (false, manualClosedW, noEffects) rfl⟩

/-- C7: after `closeEvent` the running flag is false and every wait signal
(the any-input signal and the mouse, key and char signals) is set, so no
blocked `pause`/`get_char`/`get_key`/`get_mouse_msg` stays blocked; a second
`closeEvent` is a no-op on this state. -/
theorem closeEvent_releases_all_waiters (s : GraphWin) :
    (closeEvent s).is_run = false ∧
    (closeEvent s).wait_event = true ∧
    (closeEvent s).mouse_event = true ∧
    (closeEvent s).key_event = true ∧
    (closeEvent s).char_key_event = true ∧
    closeEvent (closeEvent s) = closeEvent s :=
  ⟨rfl, rfl, rfl, rfl, rfl, rfl⟩

/-- A window state whose key buffer was set just now (key `A`, no modifier)
while the char buffer was never set: the failing input for C8. -/
def freshKeyOnly : GraphWin :=
  { w0 with key_msg := ⟨1000000000, some ⟨65, 0, "A"⟩⟩ }

/-- C8 (failing input): the key buffer holds an event stamped exactly `now`
(so it is fresh, and present), yet `has_kb_msg` returns `false`, because the
source probes the char buffer's timestamp instead of the key buffer's. -/
theorem has_kb_msg_wrong_buffer :
    has_kb_msg freshKeyOnly 1000000000 = false ∧
    freshKeyOnly.key_msg.key_event.isSome = true ∧
    1000000000 - freshKeyOnly.key_msg.time ≤ 100000000 := by
  refine ⟨by decide, by decide, by decide⟩

/-- C9 (counterexample): immediately after `reset()`, at clock value 0, the
freshness probe returns `true` (the reset timestamp 0 is within 100ms of
`now = 0`), although the buffer holds no payload — the claim says the probe
is false for every clock value. -/
theorem probe_after_reset_cex :
    has_kb_hit { w0 with key_char_msg := w0.key_char_msg.reset } 0 = true ∧
    ({ w0 with key_char_msg := w0.key_char_msg.reset }).key_char_msg.key = none := by
  refine ⟨by decide, by decide⟩

/-- C9 (amended): `reset()` followed by the freshness probe reading that
buffer returns `false` whenever the clock is strictly beyond the 100ms
window measured from the reset timestamp 0 (`100000000 < now`); freshness is
decided by the timestamp alone, the payload is not examined. -/
theorem probe_after_reset_stale (s : GraphWin) (now : Int)
    (h : 100000000 < now) :
    has_kb_hit { s with key_char_msg := s.key_char_msg.reset } now = false ∧
    has_kb_msg { s with key_char_msg := s.key_char_msg.reset } now = false ∧
    has_mouse_msg { s with mouse_msg := s.mouse_msg.reset } now = false := by
  refine ⟨?_, ?_, ?_⟩ <;>
    simp [has_kb_hit, has_kb_msg, has_mouse_msg, KeyCharMsg.reset, MouseMsg.reset] <;>
    omega

/-- Witness for C9's amended theorem at `now` just past the window. -/
theorem probe_after_reset_stale_witness :
    has_kb_hit { w0 with key_char_msg := w0.key_char_msg.reset } 100000001 = false ∧
    has_kb_msg { w0 with key_char_msg := w0.key_char_msg.reset } 100000001 = false ∧
    has_mouse_msg { w0 with mouse_msg := w0.mouse_msg.reset } 100000001 = false :=
  probe_after_reset_stale w0 100000001 (by decide)

/-- C4: on a manual-mode window and for any `fps ≥ 1`, `delay_fps` returns
`False` with no sync and no sleep when the window is closed; when running it
seeds `last_fps_time` with the current clock on first use, syncs the
surface, sleeps exactly when the post-sync clock is still before
`last_fps_time + period` (with `period = 1000000000 // fps`), stamps
`last_fps_time` with a fresh reading, and returns `True`; the skip counters
and every other field are untouched in all cases. -/
theorem delay_fps_contract (w : World) (fps : Int) (hfps : 1 ≤ fps)
    (him : w.win.immediate = false) :
    (w.win.is_run = false → delay_fps w fps = .ok (false, w, noEffects))
    ∧ (w.win.is_run = true → w.win.last_fps_time = 0 →
        delay_fps w fps =
          .ok (true,
            { w with win := { w.win with last_fps_time := w.clock (w.tick + 2) }, tick := w.tick + 3 },
            ⟨true,
             if w.clock (w.tick + 1) - w.clock w.tick < Int.fdiv 1000000000 fps then
               some (Int.fdiv (w.clock w.tick + Int.fdiv 1000000000 fps - w.clock (w.tick + 1)) 1000)
             else none⟩))
    ∧ (w.win.is_run = true → ¬ w.win.last_fps_time = 0 →
        delay_fps w fps =
          .ok (true,
            { w with win := { w.win with last_fps_time := w.clock (w.tick + 1) }, tick := w.tick + 2 },
            ⟨true,
             if w.clock w.tick - w.win.last_fps_time < Int.fdiv 1000000000 fps then
               some (Int.fdiv (w.win.last_fps_time + Int.fdiv 1000000000 fps - w.clock w.tick) 1000)
             else none⟩)) := by
  have hfz : ¬ fps = 0 := by omega
  refine ⟨fun hrun => ?_, fun hrun hseed => ?_, fun hrun hseed => ?_⟩
  · simp [delay_fps, him, hrun]
  · simp [delay_fps, him, hrun, hfz, hseed, Nat.add_assoc]
  · simp [delay_fps, him, hrun, hfz, hseed]

/-- A running manual-mode world that has never paced (`last_fps_time = 0`). -/
def fpsFirstW : World :=
  { win := w0, clock := fun i => Int.ofNat (1000 * (i + 1)), tick := 0 }

/-- Witness for C4: the closed sentinel, and a first (seeding) call. -/
theorem delay_fps_contract_witness :
    delay_fps manualClosedW 60 = .ok (false, manualClosedW, noEffects) ∧
    delay_fps fpsFirstW 60 =
      .ok (true,
        { fpsFirstW with win := { fpsFirstW.win with last_fps_time := fpsFirstW.clock (fpsFirstW.tick + 2) }, tick := fpsFirstW.tick + 3 },
        ⟨true,
         if fpsFirstW.clock (fpsFirstW.tick + 1) - fpsFirstW.clock fpsFirstW.tick < Int.fdiv 1000000000 60 then
           some (Int.fdiv (fpsFirstW.clock fpsFirstW.tick + Int.fdiv 1000000000 60 - fpsFirstW.clock (fpsFirstW.tick + 1)) 1000)
         else none⟩) :=
  ⟨(delay_fps_contract manualClosedW 60 (by decide) (by decide)).1 rfl,
   (delay_fps_contract fpsFirstW 60 (by decide) (by decide)).2.1 rfl rfl⟩

/-- C1 (counterexample): a call that is behind by *exactly* one period with
the tally above `maxSkip` (tally 5 > maxSkip 3, no pending skips, running,
manual mode).  The claim says such a call is a recovery point resetting the
tally to 0; the source's strict comparison `last_fps_time + nanotime <
nowtime` skips the whole decision block, so the frame is rendered with the
tally left at 5. -/
def atPeriodW : World :=
  { win := { w0 with last_fps_time := 1000, frames_skipped := 5 },
    clock := fun i => Int.ofNat (1010 + i), tick := 0 }

/-- C1 is false as stated: at `atPeriodW` (elapsed = period = 10ns with
`fps = 10^8`, tally 5 > maxSkip 3) the call returns `True` and syncs but
leaves the skipped-frame tally at 5 instead of resetting it to 0. -/
theorem delay_jfps_recovery_cex :
    delay_jfps atPeriodW 100000000 3 =
      .ok (true,
        { atPeriodW with win := { atPeriodW.win with last_fps_time := 1012 }, tick := 3 },
        ⟨true, none⟩)
    ∧ ({ atPeriodW.win with last_fps_time := (1012 : Int) }).frames_skipped = 5
    ∧ atPeriodW.clock 0 - atPeriodW.win.last_fps_time = Int.fdiv 1000000000 100000000
    ∧ 3 < atPeriodW.win.frames_skipped
    ∧ atPeriodW.win.frames_to_skip_count = 0
    ∧ (5 : Int) ≠ 0 := by
  refine ⟨rfl, by decide, by decide, by decide, by decide, by decide⟩

/-- C1 (amended): when the call is *strictly* more than one period behind
(`last_fps_time + period < now`), with no pending skips and the tally
strictly above `maxSkip`, the call is a recovery point: it resets the tally
to 0, syncs, performs the `delay_fps`-style pacing-sleep step, stamps
`last_fps_time` with a fresh reading and returns `True`. -/
theorem delay_jfps_recovery (w : World) (fps max_skip : Int)
    (hfps : 1 ≤ fps) (him : w.win.immediate = false)
    (hrun : w.win.is_run = true)
    (hpend : w.win.frames_to_skip_count ≤ 0)
    (hseed : ¬ w.win.last_fps_time = 0)
    (htally : max_skip < w.win.frames_skipped)
    (hlate : w.win.last_fps_time + Int.fdiv 1000000000 fps < w.clock w.tick) :
    delay_jfps w fps max_skip =
      .ok (true,
        { w with win := { w.win with frames_skipped := 0, last_fps_time := w.clock (w.tick + 2) }, tick := w.tick + 3 },
        ⟨true,
         if 0 < Int.fdiv (w.win.last_fps_time + Int.fdiv 1000000000 fps - w.clock (w.tick + 1)) 1000 then
           some (Int.fdiv (w.win.last_fps_time + Int.fdiv 1000000000 fps - w.clock (w.tick + 1)) 1000)
         else none⟩) := by
  have hfz : ¬ fps = 0 := by omega
  have hpend' : ¬ 0 < w.win.frames_to_skip_count := by omega
  have htally' : ¬ w.win.frames_skipped ≤ max_skip := by omega
  simp [delay_jfps, jfpsRenderTail, him, hrun, hfz, hpend', hseed, hlate, htally',
    Nat.add_assoc]

/-- A running world strictly more than one period behind with the tally
above the skip budget. -/
def lateRecoveryW : World :=
  { win := { w0 with last_fps_time := 1000, frames_skipped := 5 },
    clock := fun i => Int.ofNat (1011 + i), tick := 0 }

/-- Witness for C1's amended theorem. -/
theorem delay_jfps_recovery_witness :
    delay_jfps lateRecoveryW 100000000 3 =
      .ok (true,
        { lateRecoveryW with win := { lateRecoveryW.win with frames_skipped := 0, last_fps_time := lateRecoveryW.clock (lateRecoveryW.tick + 2) }, tick := lateRecoveryW.tick + 3 },
        ⟨true,
         if 0 < Int.fdiv (lateRecoveryW.win.last_fps_time + Int.fdiv 1000000000 100000000 - lateRecoveryW.clock (lateRecoveryW.tick + 1)) 1000 then
           some (Int.fdiv (lateRecoveryW.win.last_fps_time + Int.fdiv 1000000000 100000000 - lateRecoveryW.clock (lateRecoveryW.tick + 1)) 1000)
         else none⟩) :=
  delay_jfps_recovery lateRecoveryW 100000000 3 (by decide) (by decide) (by decide)
    (by decide) (by decide) (by decide) (by decide)

/-- A running world 1.7 periods behind (`elapsed = 17`, period 10 with
`fps = 10^8`), no pending skips, tally 0, used for C3. -/
def lateOwedW : World :=
  { win := { w0 with last_fps_time := 1000 },
    clock := fun i => Int.ofNat (1017 + i), tick := 0 }

/-- C3 is false as stated: at `lateOwedW` with `maxSkip = 0`, the claim's
`owed = round(elapsed / period) = round(1.7) = 2` would set the pending-skip
counter to `owed - 1 = 1`, but the source floor-divides
(`round((nowtime - last) // nanotime)` rounds an integer), computing
`owed = 1` and leaving the counter at 0. -/
theorem delay_jfps_owed_round_cex :
    delay_jfps lateOwedW 100000000 0 =
      .ok (false,
        { lateOwedW with win := { lateOwedW.win with frames_to_skip_count := 0, last_fps_time := 1018 }, tick := 2 },
        noEffects)
    ∧ owedSpec (lateOwedW.clock 0 - lateOwedW.win.last_fps_time) (Int.fdiv 1000000000 100000000) - 1 = 1
    ∧ (0 : Int) ≠ 1 := by
  refine ⟨rfl, by decide, by decide⟩

/-- C3 (amended): with `maxSkip ≤ 0`, a running manual-mode call with no
pending skips, tally at most `maxSkip`, and *strictly* more than one period
elapsed, sets the pending-skip counter to `owed - 1` where
`owed = (now - last_fps_time) // period` (floor division — the source's
`round` is applied to an integer and is the identity), stamps
`last_fps_time` with a fresh reading, and returns `False` without syncing
and without sleeping. -/
theorem delay_jfps_maxskip_nonpos (w : World) (fps max_skip : Int)
    (hfps : 1 ≤ fps) (him : w.win.immediate = false)
    (hrun : w.win.is_run = true)
    (hpend : w.win.frames_to_skip_count ≤ 0)
    (hseed : ¬ w.win.last_fps_time = 0)
    (hms : max_skip ≤ 0)
    (htally : w.win.frames_skipped ≤ max_skip)
    (hlate : w.win.last_fps_time + Int.fdiv 1000000000 fps < w.clock w.tick) :
    delay_jfps w fps max_skip =
      .ok (false,
        { w with win := { w.win with frames_to_skip_count := Int.fdiv (w.clock w.tick - w.win.last_fps_time) (Int.fdiv 1000000000 fps) - 1, last_fps_time := w.clock (w.tick + 1) }, tick := w.tick + 2 },
        noEffects) := by
  have hfz : ¬ fps = 0 := by omega
  have hpend' : ¬ 0 < w.win.frames_to_skip_count := by omega
  simp [delay_jfps, him, hrun, hfz, hpend', hseed, hlate, htally, hms, Nat.add_assoc]

/-- Witness for C3's amended theorem at `lateOwedW`. -/
theorem delay_jfps_maxskip_nonpos_witness :
    delay_jfps lateOwedW 100000000 0 =
      .ok (false,
        { lateOwedW with win := { lateOwedW.win with frames_to_skip_count := Int.fdiv (lateOwedW.clock lateOwedW.tick - lateOwedW.win.last_fps_time) (Int.fdiv 1000000000 100000000) - 1, last_fps_time := lateOwedW.clock (lateOwedW.tick + 1) }, tick := lateOwedW.tick + 2 },
        noEffects) :=
  delay_jfps_maxskip_nonpos lateOwedW 100000000 0 (by decide) (by decide) (by decide)
    (by decide) (by decide) (by decide) (by decide) (by decide)

/-- C6 (counterexample): `get_char` entered on a running window with a stale
char buffer blocks; if the window is then closed while it waits
(`closeEvent` runs, leaving the buffer unset), the call returns the buffer
content `none` — not the claimed sentinel space character. -/
theorem get_char_close_while_blocked_cex :
    (get_char w0 200000000 (closeEvent { w0 with char_key_event := false })).1 = none
    ∧ (closeEvent { w0 with char_key_event := false }).is_run = false
    ∧ w0.is_run = true
    ∧ (100000000 : Int) < 200000000 - w0.key_char_msg.time
    ∧ (some " " : Option String) ≠ none := by
  refine ⟨by decide, by decide, by decide, by decide, by decide⟩

/-- C6 (amended): when the window is already closed at entry, `get_char`,
`get_key` and `get_mouse_msg` return their sentinels (`' '`,
`(Key_Escape, NoModifier)`, `(0, 0, NO_MESSAGE, NoButton)`) immediately.
When a call blocked on a stale buffer wakes (e.g. because the window closed
while it waited), it returns from the wake-time state: `get_char` yields the
buffer's (possibly absent) char; `get_key` and `get_mouse_msg` yield their
sentinels when the respective buffer holds no event at wake-up, and
otherwise return the stale buffered event (resetting the buffer). -/
theorem input_sentinels (s wake : GraphWin) (now : Int) :
    (s.is_run = false →
       get_char s now wake = (some " ", s) ∧
       get_key s now wake = ((Key_Escape, NoModifier), s) ∧
       get_mouse_msg s now wake = ((0, 0, 0, NoButton), s))
    ∧ (s.is_run = true → 100000000 < now - s.key_char_msg.time →
         get_char s now wake =
           (wake.key_char_msg.key, { wake with key_char_msg := wake.key_char_msg.reset }))
    ∧ (s.is_run = true → 100000000 < now - s.key_msg.time →
         wake.key_msg.key_event = none →
         get_key s now wake = ((Key_Escape, NoModifier), wake))
    ∧ (s.is_run = true → 100000000 < now - s.mouse_msg.time →
         wake.mouse_msg.mouse_event = none →
         get_mouse_msg s now wake = ((0, 0, 0, NoButton), wake))
    ∧ (s.is_run = true → 100000000 < now - s.key_msg.time →
         ∀ e, wake.key_msg.key_event = some e →
         get_key s now wake =
           ((e.key, e.modifiers), { wake with key_msg := wake.key_msg.reset }))
    ∧ (s.is_run = true → 100000000 < now - s.mouse_msg.time →
         ∀ e, wake.mouse_msg.mouse_event = some e →
         get_mouse_msg s now wake =
           ((e.x, e.y, wake.mouse_msg.msg_type, e.button),
            { wake with mouse_msg := wake.mouse_msg.reset })) := by
  refine ⟨fun hrun => ?_, fun hrun hstale => ?_, fun hrun hstale hnone => ?_,
    fun hrun hstale hnone => ?_, fun hrun hstale e he => ?_, fun hrun hstale e he => ?_⟩
  · exact ⟨by simp [get_char, hrun], by simp [get_key, hrun], by simp [get_mouse_msg, hrun]⟩
  · simp [get_char, hrun, hstale]
  · simp [get_key, hrun, hstale, hnone]
  · simp [get_mouse_msg, hrun, hstale, hnone]
  · simp [get_key, hrun, hstale, he]
  · simp [get_mouse_msg, hrun, hstale, he]

/-- A running window whose key and mouse buffers hold stale events (stamped
at 50ns, probed at 200ms): a `get_key`/`get_mouse_msg` call blocks, and the
events are still buffered at wake-up. -/
def staleBufWin : GraphWin :=
  { w0 with key_msg := ⟨50, some ⟨65, 0, "A"⟩⟩,
            mouse_msg := ⟨50, some ⟨3, 4, 1⟩, PRESS_MESSAGE⟩ }

/-- Witness for C6's amended theorem: the closed-at-entry sentinels, the
three closed-while-blocked outcomes on unset buffers, and the
closed-while-blocked outcomes on stale-but-set key and mouse buffers. -/
theorem input_sentinels_witness :
    get_char { w0 with is_run := false } 0 w0 = (some " ", { w0 with is_run := false })
    ∧ get_key { w0 with is_run := false } 0 w0 =
        ((Key_Escape, NoModifier), { w0 with is_run := false })
    ∧ get_mouse_msg { w0 with is_run := false } 0 w0 =
        ((0, 0, 0, NoButton), { w0 with is_run := false })
    ∧ get_char w0 200000000 (closeEvent w0) =
        ((closeEvent w0).key_char_msg.key,
         { closeEvent w0 with key_char_msg := (closeEvent w0).key_char_msg.reset })
    ∧ get_key w0 200000000 (closeEvent w0) = ((Key_Escape, NoModifier), closeEvent w0)
    ∧ get_mouse_msg w0 200000000 (closeEvent w0) = ((0, 0, 0, NoButton), closeEvent w0)
    ∧ get_key staleBufWin 200000000 (closeEvent staleBufWin) =
        ((65, 0),
         { closeEvent staleBufWin with key_msg := (closeEvent staleBufWin).key_msg.reset })
    ∧ get_mouse_msg staleBufWin 200000000 (closeEvent staleBufWin) =
        ((3, 4, (closeEvent staleBufWin).mouse_msg.msg_type, 1),
         { closeEvent staleBufWin with mouse_msg := (closeEvent staleBufWin).mouse_msg.reset }) :=
  ⟨((input_sentinels { w0 with is_run := false } w0 0).1 rfl).1,
   ((input_sentinels { w0 with is_run := false } w0 0).1 rfl).2.1,
   ((input_sentinels { w0 with is_run := false } w0 0).1 rfl).2.2,
   (input_sentinels w0 (closeEvent w0) 200000000).2.1 rfl (by decide),
   (input_sentinels w0 (closeEvent w0) 200000000).2.2.1 rfl (by decide) rfl,
   (input_sentinels w0 (closeEvent w0) 200000000).2.2.2.1 rfl (by decide) rfl,
   (input_sentinels staleBufWin (closeEvent staleBufWin) 200000000).2.2.2.2.1
     rfl (by decide) ⟨65, 0, "A"⟩ rfl,
   (input_sentinels staleBufWin (closeEvent staleBufWin) 200000000).2.2.2.2.2
     rfl (by decide) ⟨3, 4, 1⟩ rfl⟩

end PyEasyGraphics
